import Mathlib

set_option maxRecDepth 16384

/-!
Verification development for the PEDAL repository.

The repository consists of two Airflow DAG definition files:
  * `airflow/dags/pipeline.py` — the main artifact pipeline
    (`pedal_artifact_pipeline`): seven `BashOperator` stages interleaved
    with six `ExternalTaskSensor` approval gates, chained sequentially.
  * `airflow/dags/approval_workflow.py` — the approval DAG
    (`approval_workflow`): six independent `PythonOperator` approval
    tasks, each calling `approve_task`.

The declarative task data below is embedded directly from those files.
The execution engine that interprets these declarations (stage retries,
gate polling, run orchestration) lives outside the repository, so it is
modelled from the specification (§4.1–§4.4); every such definition is
marked `Modelled from the spec:` in its doc comment.
-/

namespace Pedal

/-- A `BashOperator` task as declared in `pipeline.py`: a task id and the
bash command it runs. -/
structure BashOp where
  task_id : String
  bash_command : String
deriving DecidableEq

/-- An `ExternalTaskSensor` task as declared in `pipeline.py`.  The source
field names are `external_dag_id` and `external_task_id`; they are
shortened to `ext_dag_id` / `ext_task_id` here. -/
structure SensorOp where
  task_id : String
  ext_dag_id : String
  ext_task_id : String
  timeout : Nat
  mode : String
  poke_interval : Nat
deriving DecidableEq

/-- A `PythonOperator` task as declared in `approval_workflow.py`: a task
id and its `op_kwargs` dictionary. -/
structure PyOp where
  task_id : String
  op_kwargs : List (String × String)
deriving DecidableEq

/-- The `default_args` dictionaries of the two DAG files.  `retry_delay`
is in seconds (`timedelta(minutes=5)` = 300 s); the approval DAG declares
no `retry_delay`, hence the `Option`. -/
structure DefaultArgs where
  owner : String
  depends_on_past : Bool
  email_on_failure : Bool
  email_on_retry : Bool
  retries : Nat
  retry_delay_seconds : Option Nat
deriving DecidableEq

/-- DAG-level metadata common to both files. -/
structure DagSpec where
  dag_id : String
  schedule_interval : Option String
  catchup : Bool
deriving DecidableEq

namespace PipelineSrc

/-- `default_args` of `pipeline.py` (lines 13–20). -/
def default_args : DefaultArgs :=
  { owner := "pedal", depends_on_past := false, email_on_failure := true,
    email_on_retry := false, retries := 1, retry_delay_seconds := some 300 }

/-- The `pedal_artifact_pipeline` DAG header (`schedule_interval=None`,
`catchup=False`). -/
def dag : DagSpec :=
  { dag_id := "pedal_artifact_pipeline", schedule_interval := none, catchup := false }

/-- Stage 1 of `pipeline.py`. -/
def requirements_ingest : BashOp :=
  { task_id := "requirements_ingest",
    bash_command := "export TASK_ID=requirements_ingest && node /pedal/operators/requirements_ingest.ts --input /pedal/artifacts/requirements.yaml --output /pedal/artifacts/requirements.json" }

/-- Stage 2 of `pipeline.py`. -/
def domain_model_generator : BashOp :=
  { task_id := "domain_model_generator",
    bash_command := "export TASK_ID=domain_model_generator && node /pedal/operators/domain_model_generator.ts --input /pedal/artifacts/requirements.json --output /pedal/artifacts/domain_model.json" }

/-- Stage 3 of `pipeline.py`. -/
def action_model_generator : BashOp :=
  { task_id := "action_model_generator",
    bash_command := "export TASK_ID=action_model_generator && node /pedal/operators/action_model_generator.ts --input /pedal/artifacts/domain_model.json --output /pedal/artifacts/action_model.json" }

/-- Stage 4 of `pipeline.py`. -/
def openapi_generator : BashOp :=
  { task_id := "openapi_generator",
    bash_command := "export TASK_ID=openapi_generator && node /pedal/operators/openapi_generator.ts --input /pedal/artifacts/action_model.json --output /pedal/artifacts/oas.yaml" }

/-- Stage 5 of `pipeline.py`. -/
def zod_schema_generator : BashOp :=
  { task_id := "zod_schema_generator",
    bash_command := "export TASK_ID=zod_schema_generator && node /pedal/operators/zod_schema_generator.ts --input /pedal/artifacts/oas.yaml --output /pedal/artifacts/zod_schemas.ts" }

/-- Stage 6 of `pipeline.py`. -/
def database_schema_generator : BashOp :=
  { task_id := "database_schema_generator",
    bash_command := "export TASK_ID=database_schema_generator && node /pedal/operators/database_schema_generator.ts --input /pedal/artifacts/zod_schemas.ts --output /pedal/artifacts/db_schema.ts" }

/-- Stage 7 of `pipeline.py`. -/
def artifact_persist : BashOp :=
  { task_id := "artifact_persist",
    bash_command := "export TASK_ID=artifact_persist && node /pedal/operators/artifact_persist.ts --input /pedal/artifacts --output /pedal/dist" }

/-- Helper for the six approval sensors, which share
`external_dag_id='approval_workflow'`, `timeout=3600`,
`mode='reschedule'`, `poke_interval=60`; the sensor's `task_id` equals
its `external_task_id`. -/
def mkSensor (tid : String) : SensorOp :=
  { task_id := tid, ext_dag_id := "approval_workflow", ext_task_id := tid,
    timeout := 3600, mode := "reschedule", poke_interval := 60 }

/-- Approval sensor after stage 1. -/
def approve_requirements_ingest : SensorOp := mkSensor "approve_requirements_ingest"

/-- Approval sensor after stage 2. -/
def approve_domain_model_generator : SensorOp := mkSensor "approve_domain_model_generator"

/-- Approval sensor after stage 3. -/
def approve_action_model_generator : SensorOp := mkSensor "approve_action_model_generator"

/-- Approval sensor after stage 4. -/
def approve_openapi_generator : SensorOp := mkSensor "approve_openapi_generator"

/-- Approval sensor after stage 5. -/
def approve_zod_schema_generator : SensorOp := mkSensor "approve_zod_schema_generator"

/-- Approval sensor after stage 6. -/
def approve_database_schema_generator : SensorOp := mkSensor "approve_database_schema_generator"

/-- The seven stage operators of `pipeline.py`, in chain order. -/
def bashOps : List BashOp :=
  [requirements_ingest, domain_model_generator, action_model_generator,
   openapi_generator, zod_schema_generator, database_schema_generator,
   artifact_persist]

/-- The six approval sensors of `pipeline.py`, in chain order. -/
def sensorOps : List SensorOp :=
  [approve_requirements_ingest, approve_domain_model_generator,
   approve_action_model_generator, approve_openapi_generator,
   approve_zod_schema_generator, approve_database_schema_generator]

/-- The `>>` dependency chain of `pipeline.py` (lines 148–152), as a list
of directed edges (upstream task id, downstream task id). -/
def deps : List (String × String) :=
  [("requirements_ingest", "approve_requirements_ingest"),
   ("approve_requirements_ingest", "domain_model_generator"),
   ("domain_model_generator", "approve_domain_model_generator"),
   ("approve_domain_model_generator", "action_model_generator"),
   ("action_model_generator", "approve_action_model_generator"),
   ("approve_action_model_generator", "openapi_generator"),
   ("openapi_generator", "approve_openapi_generator"),
   ("approve_openapi_generator", "zod_schema_generator"),
   ("zod_schema_generator", "approve_zod_schema_generator"),
   ("approve_zod_schema_generator", "database_schema_generator"),
   ("database_schema_generator", "approve_database_schema_generator"),
   ("approve_database_schema_generator", "artifact_persist")]

end PipelineSrc

namespace ApprovalSrc

/-- `default_args` of `approval_workflow.py` (lines 12–18): `retries = 0`
and no `retry_delay`. -/
def default_args : DefaultArgs :=
  { owner := "pedal", depends_on_past := false, email_on_failure := false,
    email_on_retry := false, retries := 0, retry_delay_seconds := none }

/-- The `approval_workflow` DAG header (`schedule_interval=None`,
`catchup=False`): manually triggered only. -/
def dag : DagSpec :=
  { dag_id := "approval_workflow", schedule_interval := none, catchup := false }

/-- The Python function `approve_task(**kwargs)`: reads `task_id` from the
kwargs with default `'unknown'`, prints an approval message, and returns
`True`.  Embedded as a pure function from the kwargs dictionary to the
pair (return value, printed message). -/
def approve_task (kwargs : List (String × String)) : Bool × String :=
  let task_id := (kwargs.lookup "task_id").getD "unknown"
  (true, "Approval granted for task: " ++ task_id)

/-- The six `PythonOperator` approval tasks of `approval_workflow.py`,
each with its `op_kwargs`. -/
def approvalTasks : List PyOp :=
  [{ task_id := "approve_requirements_ingest", op_kwargs := [("task_id", "requirements_ingest")] },
   { task_id := "approve_domain_model_generator", op_kwargs := [("task_id", "domain_model_generator")] },
   { task_id := "approve_action_model_generator", op_kwargs := [("task_id", "action_model_generator")] },
   { task_id := "approve_openapi_generator", op_kwargs := [("task_id", "openapi_generator")] },
   { task_id := "approve_zod_schema_generator", op_kwargs := [("task_id", "zod_schema_generator")] },
   { task_id := "approve_database_schema_generator", op_kwargs := [("task_id", "database_schema_generator")] }]

/-- The dependency edges of `approval_workflow.py`: the file declares none
("No task dependencies here - each approval task is independent and
manually triggered"). -/
def deps : List (String × String) := []

end ApprovalSrc

/-! ## Data model (spec §3, instantiated from the source) -/

/-- A stage specification (spec §3 `StageSpec`), instantiated from a
`BashOperator` plus the DAG-level `default_args` retry policy. -/
structure StageSpec where
  id : String
  command : String
  retry_limit : Nat
  retry_delay : Nat
deriving DecidableEq

/-- A gate specification (spec §3 `GateSpec`), instantiated from an
`ExternalTaskSensor`. -/
structure GateSpec where
  id : String
  checkpoint_ref : String
  timeout : Nat
  poll_interval : Nat
deriving DecidableEq

/-- The `StageSpec` of a `BashOperator` under `pipeline.py`'s
`default_args` (`retries = 1`, `retry_delay = 300 s`). -/
def stageOfOp (b : BashOp) : StageSpec :=
  { id := b.task_id, command := b.bash_command,
    retry_limit := PipelineSrc.default_args.retries,
    retry_delay := PipelineSrc.default_args.retry_delay_seconds.getD 0 }

/-- The `GateSpec` of an `ExternalTaskSensor`: the checkpoint it watches
is its `external_task_id`. -/
def gateOfOp (x : SensorOp) : GateSpec :=
  { id := x.task_id, checkpoint_ref := x.ext_task_id,
    timeout := x.timeout, poll_interval := x.poke_interval }

/-- One element of the pipeline chain: a stage or a gate. -/
inductive PipelineTask where
  | stage (s : StageSpec)
  | gate (g : GateSpec)
deriving DecidableEq

/-- The `pedal_artifact_pipeline` task chain in the order fixed by the
`>>` dependencies of `pipeline.py` lines 148–152. -/
def pedalChain : List PipelineTask :=
  [.stage (stageOfOp PipelineSrc.requirements_ingest),
   .gate (gateOfOp PipelineSrc.approve_requirements_ingest),
   .stage (stageOfOp PipelineSrc.domain_model_generator),
   .gate (gateOfOp PipelineSrc.approve_domain_model_generator),
   .stage (stageOfOp PipelineSrc.action_model_generator),
   .gate (gateOfOp PipelineSrc.approve_action_model_generator),
   .stage (stageOfOp PipelineSrc.openapi_generator),
   .gate (gateOfOp PipelineSrc.approve_openapi_generator),
   .stage (stageOfOp PipelineSrc.zod_schema_generator),
   .gate (gateOfOp PipelineSrc.approve_zod_schema_generator),
   .stage (stageOfOp PipelineSrc.database_schema_generator),
   .gate (gateOfOp PipelineSrc.approve_database_schema_generator),
   .stage (stageOfOp PipelineSrc.artifact_persist)]

/-- The task ids of a chain, in order. -/
def taskIds (tasks : List PipelineTask) : List String :=
  tasks.map fun t => match t with
    | .stage s => s.id
    | .gate g => g.id

/-- The consecutive edges of a linear chain of ids. -/
def chainEdges : List String → List (String × String)
  | [] => []
  | [_] => []
  | a :: b :: rest => (a, b) :: chainEdges (b :: rest)

/-! ## Approval Registry (spec §4.1) -/

/-- An approval entry (spec §3 `ApprovalEntry`): `approved` flag and
nullable grant timestamp. -/
structure ApprovalEntry where
  approved : Bool
  granted_at : Option Nat
deriving DecidableEq

/-- A freshly created approval entry: `approved = false`, no timestamp. -/
def entryInit : ApprovalEntry := { approved := false, granted_at := none }

/-- Modelled from the spec: `grant(checkpoint_ref)` of the Approval
Registry (§4.1) — sets `approved = true` and records `granted_at` if not
already set; total (always succeeds).  The engine hosting the registry is
not part of the repository source. -/
def grantEntry (e : ApprovalEntry) (now : Nat) : ApprovalEntry :=
  { approved := true,
    granted_at := match e.granted_at with
      | some t => some t
      | none => some now }

/-- A registry maps checkpoint references to approval entries. -/
def Registry : Type := String → ApprovalEntry

/-- Modelled from the spec: registry-level `grant` (§4.1), touching only
the named checkpoint's entry. -/
def grantReg (reg : Registry) (ref : String) (now : Nat) : Registry :=
  fun r => if r = ref then grantEntry (reg r) now else reg r

/-! ## Engine events and results -/

/-- Observable events of one run, each carrying the time it occurred. -/
inductive Event where
  | invoke (sid : String) (t : Nat)
  | stageSucceeded (sid : String) (t : Nat)
  | stageFailed (sid : String) (t : Nat)
  | gateEntered (gid : String) (t : Nat)
  | gateApproved (gid : String) (t : Nat)
  | gateTimedOut (gid : String) (t : Nat)
deriving DecidableEq

/-- The time an event occurred. -/
def Event.time : Event → Nat
  | .invoke _ t => t
  | .stageSucceeded _ t => t
  | .stageFailed _ t => t
  | .gateEntered _ t => t
  | .gateApproved _ t => t
  | .gateTimedOut _ t => t

/-- Terminal status of a run (spec §4.4; cancellation is external input
and not part of these claims). -/
inductive RunStatus where
  | completed
  | failed (sid : String)
  | timed_out (gid : String)
deriving DecidableEq

/-! ## Stage Runner (spec §4.2) -/

/-- Modelled from the spec: the Stage Runner attempt loop (§4.2) — one
external invocation per attempt; on failure with attempts remaining,
retry after `retry_delay`; the engine is not part of the repository
source.  Arguments: retry delay `d`, per-attempt outcome oracle,
remaining retries, attempt index, current time.  Returns (attempt start
times, success flag, finish time). -/
def stageLoop (d : Nat) (outcome : Nat → Bool) :
    Nat → Nat → Nat → List Nat × Bool × Nat
  | remaining, k, now =>
    if outcome k then ([now], true, now)
    else
      match remaining with
      | 0 => ([now], false, now)
      | r + 1 =>
        let res := stageLoop d outcome r (k + 1) (now + d)
        (now :: res.1, res.2.1, res.2.2)

/-- Modelled from the spec: `execute(StageSpec, ...)` of the Stage Runner
(§4.2), starting at attempt 0. -/
def runStage (s : StageSpec) (outcome : Nat → Bool) (t0 : Nat) :
    List Nat × Bool × Nat :=
  stageLoop s.retry_delay outcome s.retry_limit 0 t0

/-- The event block a stage execution contributes to the run trace: one
`invoke` per attempt, then the terminal stage event. -/
def stageBlock (s : StageSpec) (times : List Nat) (ok : Bool) (tEnd : Nat) :
    List Event :=
  times.map (fun t => Event.invoke s.id t) ++
    [if ok then Event.stageSucceeded s.id tEnd else Event.stageFailed s.id tEnd]

/-! ## Gate Sensor (spec §4.3) -/

/-- Whether the watched checkpoint is approved at time `now`, given the
(optional) time at which `grant` was issued for it. -/
def approvedAt (grantTime : Option Nat) (now : Nat) : Bool :=
  match grantTime with
  | some tg => tg ≤ now
  | none => false

/-- One poke's outcome: approve, suspend until a future time (releasing
the worker), or expire. -/
inductive PokeAction where
  | approvedNow
  | suspendUntil (resumeAt : Nat)
  | expired
deriving DecidableEq

/-- Modelled from the spec: one poll step of the Gate Sensor (§4.3 steps
2–6) — query the registry; if approved, finish; if not approved and
before the deadline, suspend (releasing the execution resource) until
`now + poll_interval`; otherwise time out.  The sensor engine is not part
of the repository source. -/
def sensorPoke (g : GateSpec) (grantTime : Option Nat) (deadline now : Nat) :
    PokeAction :=
  if approvedAt grantTime now then .approvedNow
  else if now < deadline then .suspendUntil (now + g.poll_interval)
  else .expired

/-- Result of a full gate wait. -/
inductive GateResult where
  | approved (t : Nat)
  | timed_out (t : Nat)
deriving DecidableEq

/-- The time at which a gate wait ended. -/
def GateResult.time : GateResult → Nat
  | .approved t => t
  | .timed_out t => t

/-- Modelled from the spec: the Gate Sensor poll loop (§4.3), iterating
`sensorPoke` from poll time to poll time.  The fuel argument only bounds
the recursion; `runGate` supplies fuel that provably suffices whenever
`poll_interval > 0`. -/
def gateLoop (g : GateSpec) (grantTime : Option Nat) (deadline : Nat) :
    Nat → Nat → GateResult
  | 0, now => .timed_out now
  | fuel + 1, now =>
    match sensorPoke g grantTime deadline now with
    | .approvedNow => .approved now
    | .suspendUntil r => gateLoop g grantTime deadline fuel r
    | .expired => .timed_out now

/-- Modelled from the spec: a full gate wait (§4.3) — on entry at `t0`
the deadline is `t0 + timeout`, then the poll loop runs. -/
def runGate (g : GateSpec) (grantTime : Option Nat) (t0 : Nat) : GateResult :=
  gateLoop g grantTime (t0 + g.timeout) (g.timeout + 1) t0

/-- The event block of a gate that was approved. -/
def gateBlockA (g : GateSpec) (t0 tA : Nat) : List Event :=
  [Event.gateEntered g.id t0, Event.gateApproved g.id tA]

/-- The event block of a gate that timed out. -/
def gateBlockT (g : GateSpec) (t0 tT : Nat) : List Event :=
  [Event.gateEntered g.id t0, Event.gateTimedOut g.id tT]

/-! ## Run Orchestrator (spec §4.4) -/

/-- Modelled from the spec: the Run Orchestrator (§4.4) — advance the
cursor through the chain, alternating Stage Runner and Gate Sensor; halt
with a terminal failure status on stage failure or gate timeout.  The
orchestrator engine is not part of the repository source.  Inputs: a
per-stage per-attempt outcome oracle, the grant times issued externally
per checkpoint, the task chain, and the start time.  Returns the terminal
status, the trace as one event block per task reached, and the final
time. -/
def runTasks (outcome : String → Nat → Bool) (grantTime : String → Option Nat) :
    List PipelineTask → Nat → RunStatus × List (List Event) × Nat
  | [], t => (.completed, [], t)
  | .stage s :: rest, t =>
    match runStage s (outcome s.id) t with
    | (times, true, tEnd) =>
      let res := runTasks outcome grantTime rest tEnd
      (res.1, stageBlock s times true tEnd :: res.2.1, res.2.2)
    | (times, false, tEnd) =>
      (.failed s.id, [stageBlock s times false tEnd], tEnd)
  | .gate g :: rest, t =>
    match runGate g (grantTime g.checkpoint_ref) t with
    | .approved tA =>
      let res := runTasks outcome grantTime rest tA
      (res.1, gateBlockA g t tA :: res.2.1, res.2.2)
    | .timed_out tT =>
      (.timed_out g.id, [gateBlockT g t tT], tT)

/-- The stage ids invoked over a run trace, in order, one entry per
`invoke` event. -/
def invokesOf (blocks : List (List Event)) : List String :=
  blocks.flatten.filterMap fun e => match e with
    | .invoke sid _ => some sid
    | _ => none

/-- The stage ids of a chain, in chain order. -/
def stageIds (tasks : List PipelineTask) : List String :=
  tasks.filterMap fun t => match t with
    | .stage s => some s.id
    | .gate _ => none

/-- The number of `invoke` events in one block. -/
def countInvokes (b : List Event) : Nat :=
  b.countP fun e => match e with
    | .invoke _ _ => true
    | _ => false

/-- The gate-entry time recorded in the `i`-th block of a trace, when
that block belongs to a gate. -/
def entryOf (blocks : List (List Event)) (i : Nat) : Option Nat :=
  match blocks[i]? with
  | some (Event.gateEntered _ t :: _) => some t
  | _ => none

/-- Side condition: the stage (if any) at this chain position succeeds on
its first attempt under the given oracle. -/
def firstOK (outcome : String → Nat → Bool) : PipelineTask → Bool
  | .stage s => outcome s.id 0
  | .gate _ => true

/-- Side condition: the gate (if any) at this chain position has a
positive poll interval. -/
def pollPos : PipelineTask → Bool
  | .stage _ => true
  | .gate g => decide (0 < g.poll_interval)

/-- Side condition: if position `i` of the chain is a gate that the run
entered at time `tE`, then `grant` was issued for its checkpoint strictly
before the gate's deadline `tE + timeout`. -/
def grantOK (grantTime : String → Option Nat) :
    Option PipelineTask → Option Nat → Bool
  | some (.gate g), some tE =>
    match grantTime g.checkpoint_ref with
    | some tg => decide (tg < tE + g.timeout)
    | none => false
  | _, _ => true

/-! ## Artifact paths (from the `bash_command` strings) -/

/-- Splits a character list on spaces, accumulating the current token in
reverse; structurally recursive so that it evaluates inside the kernel
(the behaviour of `String.splitOn " "` on these commands). -/
def splitTokens : List Char → List Char → List String
  | [], acc => [String.mk acc.reverse]
  | c :: cs, acc =>
    if c = ' ' then String.mk acc.reverse :: splitTokens cs []
    else splitTokens cs (c :: acc)

/-- The space-separated tokens of a string. -/
def tokensOf (s : String) : List String := splitTokens s.data []

/-- The token following the first occurrence of `flag` in a token list. -/
def argAfter (flag : String) : List String → Option String
  | [] => none
  | [_] => none
  | x :: y :: rest => if x = flag then some y else argAfter flag (y :: rest)

/-- The `--input` path of a stage's bash command. -/
def stageInput (b : BashOp) : Option String :=
  argAfter "--input" (tokensOf b.bash_command)

/-- The `--output` path of a stage's bash command. -/
def stageOutput (b : BashOp) : Option String :=
  argAfter "--output" (tokensOf b.bash_command)

/-- Whether the first list is an initial segment of the second;
structurally recursive counterpart of `String.startsWith`. -/
def startsWithChars : List Char → List Char → Bool
  | [], _ => true
  | _ :: _, [] => false
  | a :: as, b :: bs => a = b && startsWithChars as bs

/-- Whether, for the first `n` consecutive stage pairs of the chain, the
output path of stage `i` is exactly the input path of stage `i+1`. -/
def chainIOAligned (ops : List BashOp) (n : Nat) : Bool :=
  (List.range n).all fun i =>
    match ops[i]?, ops[i + 1]? with
    | some x, some y => stageOutput x == stageInput y
    | _, _ => false

/-! ## Chain shape (spec §3 `PipelineDefinition`) -/

/-- Follows the spec's words (§3): the pipeline definition is an ordered
sequence of `(StageSpec, GateSpec)` pairs — every stage immediately
followed by exactly one gate, nothing outside the pairs.  Used only for
comparison with the chain embedded from the source. -/
def specPairShape : List PipelineTask → Bool
  | [] => true
  | .stage _ :: .gate _ :: rest => specPairShape rest
  | _ => false

/-- The chain shape realised by the source: `(stage, gate)` pairs up to a
final trailing stage that has no gate after it. -/
def pairShapeFinalStage : List PipelineTask → Bool
  | [.stage _] => true
  | .stage _ :: .gate _ :: rest => pairShapeFinalStage rest
  | _ => false

/-- Whether a gate is bound 1:1 to the stage it follows: the gate watches
checkpoint `"approve_" ++ stage id` in the `approval_workflow` DAG, and
that DAG declares a task of exactly that id whose `op_kwargs` name the
stage. -/
def gateBoundToStage (s : StageSpec) (g : GateSpec) : Bool :=
  g.checkpoint_ref == "approve_" ++ s.id &&
  ((ApprovalSrc.approvalTasks.find? fun p => p.task_id == g.checkpoint_ref).any
    fun p => p.op_kwargs.lookup "task_id" == some s.id)

/-- Whether every adjacent `(stage, gate)` pair of the chain is 1:1
bound. -/
def chainBound : List PipelineTask → Bool
  | .stage s :: .gate g :: rest => gateBoundToStage s g && chainBound rest
  | _ :: rest => chainBound rest
  | [] => true

/-- The checkpoint references watched along a chain, in order. -/
def checkpointRefs (tasks : List PipelineTask) : List String :=
  tasks.filterMap fun t => match t with
    | .gate g => some g.checkpoint_ref
    | .stage _ => none

/-! ## Worker-pool occupancy model (spec §5) -/

/-- The status of one outstanding gate wait in the shared-pool scheduler
(spec §5): either actively poking on a worker, or suspended with a future
resume time and holding no worker. -/
inductive GateWait where
  | polling (worker : Nat)
  | suspended (resumeAt : Nat)
deriving DecidableEq

/-- A scheduler state: the outstanding gate waits. -/
structure SchedState where
  gates : List GateWait
deriving DecidableEq

/-- The number of gates currently suspended (waiting without a worker). -/
def waitingGates (st : SchedState) : Nat :=
  st.gates.countP fun w => match w with
    | .suspended _ => true
    | .polling _ => false

/-- The number of workers held by outstanding gate waits. -/
def busyWorkers (st : SchedState) : Nat :=
  st.gates.countP fun w => match w with
    | .polling _ => true
    | .suspended _ => false

/-! ## Stage Runner lemmas -/

/-- A first-attempt success finishes immediately with a single attempt. -/
lemma stageLoop_first_success (d : Nat) (outcome : Nat → Bool) (r k now : Nat)
    (h : outcome k = true) :
    stageLoop d outcome r k now = ([now], true, now) := by
  cases r <;> simp [stageLoop, h]

/-- When every attempt fails, the loop makes `r + 1` attempts spaced by
`d`, and fails at time `now + r * d`. -/
lemma stageLoop_all_fail (d : Nat) (outcome : Nat → Bool)
    (h : ∀ j, outcome j = false) :
    ∀ r k now, stageLoop d outcome r k now =
      ((List.range (r + 1)).map (fun i => now + i * d), false, now + r * d)
  | 0, k, now => by simp [stageLoop, h, List.range_succ]
  | r + 1, k, now => by
    rw [stageLoop]
    simp only [h, Bool.false_eq_true, if_false]
    rw [stageLoop_all_fail d outcome h r (k + 1) (now + d)]
    have h1 : (List.range (r + 1 + 1)).map (fun i => now + i * d)
        = now :: (List.range (r + 1)).map (fun i => now + d + i * d) := by
      rw [List.range_succ_eq_map, List.map_cons, List.map_map]
      congr 1
      · simp
      · congr 1
        funext i
        simp only [Function.comp_apply]
        rw [Nat.succ_mul]
        ring
    have h3 : now + (r + 1) * d = now + d + r * d := by ring
    rw [h1, h3]

/-- Attempt times never precede the start time, and the finish time does
not precede the start time. -/
lemma stageLoop_time_lb (d : Nat) (outcome : Nat → Bool) :
    ∀ r k now, now ≤ (stageLoop d outcome r k now).2.2 ∧
      ∀ t ∈ (stageLoop d outcome r k now).1, now ≤ t
  | 0, k, now => by
    by_cases h : outcome k = true <;> simp [stageLoop, h]
  | r + 1, k, now => by
    by_cases h : outcome k = true
    · simp [stageLoop, h]
    · rw [stageLoop]
      simp only [h, Bool.false_eq_true, if_false]
      have ih := stageLoop_time_lb d outcome r (k + 1) (now + d)
      refine ⟨by omega, ?_⟩
      intro t ht
      simp only [List.mem_cons] at ht
      rcases ht with rfl | ht
      · exact le_refl t
      · have := ih.2 t ht
        omega

/-- The loop makes at most `r + 1` attempts. -/
lemma stageLoop_len_le (d : Nat) (outcome : Nat → Bool) :
    ∀ r k now, (stageLoop d outcome r k now).1.length ≤ r + 1
  | 0, k, now => by
    by_cases h : outcome k = true <;> simp [stageLoop, h]
  | r + 1, k, now => by
    by_cases h : outcome k = true
    · simp [stageLoop, h]
    · rw [stageLoop]
      simp only [h, Bool.false_eq_true, if_false]
      have ih := stageLoop_len_le d outcome r (k + 1) (now + d)
      simpa using Nat.succ_le_succ ih

/-! ## Gate Sensor lemmas -/

/-- The gate loop never finishes before the time it is resumed at. -/
lemma gateLoop_time_lb (g : GateSpec) (gt : Option Nat) (deadline : Nat) :
    ∀ fuel now, now ≤ (gateLoop g gt deadline fuel now).time
  | 0, now => le_refl now
  | fuel + 1, now => by
    rw [gateLoop]
    rcases hp : sensorPoke g gt deadline now with _ | r | _
    · exact le_refl now
    · have hr : r = now + g.poll_interval := by
        simp only [sensorPoke] at hp
        split at hp
        · cases hp
        · split at hp
          · cases hp; rfl
          · cases hp
      have h2 := gateLoop_time_lb g gt deadline fuel r
      show now ≤ (gateLoop g gt deadline fuel r).time
      omega
    · exact le_refl now

/-- A gate whose checkpoint is never granted times out at the first poll
time at or past the deadline: within one `poll_interval` of slack. -/
lemma gateLoop_none_timeout (g : GateSpec) (deadline : Nat)
    (hpoll : 0 < g.poll_interval) :
    ∀ fuel now, deadline - now < fuel → now < deadline + g.poll_interval →
      ∃ tT, gateLoop g none deadline fuel now = .timed_out tT ∧
        deadline ≤ tT ∧ tT ≤ deadline + g.poll_interval
  | 0, now => by omega
  | fuel + 1, now => by
    intro hfuel hinv
    rw [gateLoop]
    by_cases hlt : now < deadline
    · have hpoke : sensorPoke g none deadline now =
          .suspendUntil (now + g.poll_interval) := by
        simp [sensorPoke, approvedAt, hlt]
      rw [hpoke]
      exact gateLoop_none_timeout g deadline hpoll fuel (now + g.poll_interval)
        (by omega) (by omega)
    · have hpoke : sensorPoke g none deadline now = .expired := by
        simp [sensorPoke, approvedAt, hlt]
      rw [hpoke]
      exact ⟨now, rfl, by omega, by omega⟩

/-- A gate whose checkpoint is granted strictly before the deadline is
approved (at some poll time not before the resumption time). -/
lemma gateLoop_granted_approved (g : GateSpec) (deadline tg : Nat)
    (hpoll : 0 < g.poll_interval) (htg : tg < deadline) :
    ∀ fuel now, deadline - now < fuel →
      ∃ tA, gateLoop g (some tg) deadline fuel now = .approved tA ∧ now ≤ tA
  | 0, now => by omega
  | fuel + 1, now => by
    intro hfuel
    rw [gateLoop]
    by_cases hap : tg ≤ now
    · have hpoke : sensorPoke g (some tg) deadline now = .approvedNow := by
        simp [sensorPoke, approvedAt, hap]
      rw [hpoke]
      exact ⟨now, rfl, le_refl now⟩
    · have hlt : now < deadline := by omega
      have hpoke : sensorPoke g (some tg) deadline now =
          .suspendUntil (now + g.poll_interval) := by
        simp [sensorPoke, approvedAt, hap, hlt]
      rw [hpoke]
      obtain ⟨tA, hres, hle⟩ := gateLoop_granted_approved g deadline tg hpoll htg
        fuel (now + g.poll_interval) (by omega)
      exact ⟨tA, hres, by omega⟩

/-- `runGate` under a never-granted checkpoint: times out between the
deadline and the deadline plus one poll interval. -/
lemma runGate_none (g : GateSpec) (t0 : Nat) (hpoll : 0 < g.poll_interval) :
    ∃ tT, runGate g none t0 = .timed_out tT ∧
      t0 + g.timeout ≤ tT ∧ tT ≤ t0 + g.timeout + g.poll_interval := by
  obtain ⟨tT, h1, h2, h3⟩ := gateLoop_none_timeout g (t0 + g.timeout) hpoll
    (g.timeout + 1) t0 (by omega) (by omega)
  exact ⟨tT, h1, h2, h3⟩

/-- `runGate` under a checkpoint granted strictly before the deadline:
approved, no earlier than entry. -/
lemma runGate_granted (g : GateSpec) (t0 tg : Nat) (hpoll : 0 < g.poll_interval)
    (htg : tg < t0 + g.timeout) :
    ∃ tA, runGate g (some tg) t0 = .approved tA ∧ t0 ≤ tA := by
  obtain ⟨tA, h1, h2⟩ := gateLoop_granted_approved g (t0 + g.timeout) tg hpoll htg
    (g.timeout + 1) t0 (by omega)
  exact ⟨tA, h1, h2⟩

/-! ## Run Orchestrator lemmas -/

/-- Unfolding: a stage that succeeds is followed by the rest of the run
from its finish time. -/
lemma runTasks_stage_succ (o : String → Nat → Bool) (gr : String → Option Nat)
    (s : StageSpec) (rest : List PipelineTask) (t : Nat) (times : List Nat)
    (tEnd : Nat) (h : runStage s (o s.id) t = (times, true, tEnd)) :
    runTasks o gr (.stage s :: rest) t =
      ((runTasks o gr rest tEnd).1,
       stageBlock s times true tEnd :: (runTasks o gr rest tEnd).2.1,
       (runTasks o gr rest tEnd).2.2) := by
  simp [runTasks, h]

/-- Unfolding: a stage that exhausts its retries halts the run. -/
lemma runTasks_stage_fail (o : String → Nat → Bool) (gr : String → Option Nat)
    (s : StageSpec) (rest : List PipelineTask) (t : Nat) (times : List Nat)
    (tEnd : Nat) (h : runStage s (o s.id) t = (times, false, tEnd)) :
    runTasks o gr (.stage s :: rest) t =
      (.failed s.id, [stageBlock s times false tEnd], tEnd) := by
  simp [runTasks, h]

/-- Unfolding: an approved gate is followed by the rest of the run from
its approval time. -/
lemma runTasks_gate_approved (o : String → Nat → Bool) (gr : String → Option Nat)
    (g : GateSpec) (rest : List PipelineTask) (t tA : Nat)
    (h : runGate g (gr g.checkpoint_ref) t = .approved tA) :
    runTasks o gr (.gate g :: rest) t =
      ((runTasks o gr rest tA).1,
       gateBlockA g t tA :: (runTasks o gr rest tA).2.1,
       (runTasks o gr rest tA).2.2) := by
  simp [runTasks, h]

/-- Unfolding: a timed-out gate halts the run. -/
lemma runTasks_gate_timeout (o : String → Nat → Bool) (gr : String → Option Nat)
    (g : GateSpec) (rest : List PipelineTask) (t tT : Nat)
    (h : runGate g (gr g.checkpoint_ref) t = .timed_out tT) :
    runTasks o gr (.gate g :: rest) t =
      (.timed_out g.id, [gateBlockT g t tT], tT) := by
  simp [runTasks, h]

/-- No event of a run precedes the run's start time, and the final time
does not precede the start time. -/
lemma runTasks_time_lb (o : String → Nat → Bool) (gr : String → Option Nat) :
    ∀ tasks t, t ≤ (runTasks o gr tasks t).2.2 ∧
      ∀ b ∈ (runTasks o gr tasks t).2.1, ∀ e ∈ b, t ≤ e.time
  | [], t => by simp [runTasks]
  | .stage s :: rest, t => by
    have hsl := stageLoop_time_lb s.retry_delay (o s.id) s.retry_limit 0 t
    rcases hrs : runStage s (o s.id) t with ⟨times, ok, tEnd⟩
    rw [show stageLoop s.retry_delay (o s.id) s.retry_limit 0 t
        = (times, ok, tEnd) from hrs] at hsl
    obtain ⟨htEnd, htimes⟩ := hsl
    have hblock : ∀ e ∈ stageBlock s times ok tEnd, t ≤ e.time := by
      intro e he
      simp only [stageBlock, List.mem_append, List.mem_map, List.mem_singleton] at he
      rcases he with ⟨x, hx, rfl⟩ | rfl
      · exact htimes x hx
      · cases ok <;> simpa [Event.time] using htEnd
    cases ok with
    | true =>
      rw [runTasks_stage_succ o gr s rest t times tEnd hrs]
      have ih := runTasks_time_lb o gr rest tEnd
      refine ⟨le_trans htEnd ih.1, ?_⟩
      intro b hb e he
      simp only [List.mem_cons] at hb
      rcases hb with rfl | hb
      · exact hblock e he
      · exact le_trans htEnd (ih.2 b hb e he)
    | false =>
      rw [runTasks_stage_fail o gr s rest t times tEnd hrs]
      exact ⟨htEnd, by simpa using hblock⟩
  | .gate g :: rest, t => by
    have hlb := gateLoop_time_lb g (gr g.checkpoint_ref) (t + g.timeout)
      (g.timeout + 1) t
    rcases hrg : runGate g (gr g.checkpoint_ref) t with tA | tT
    · rw [show gateLoop g (gr g.checkpoint_ref) (t + g.timeout) (g.timeout + 1) t
          = .approved tA from hrg] at hlb
      simp only [GateResult.time] at hlb
      rw [runTasks_gate_approved o gr g rest t tA hrg]
      have ih := runTasks_time_lb o gr rest tA
      refine ⟨le_trans hlb ih.1, ?_⟩
      intro b hb e he
      simp only [List.mem_cons] at hb
      rcases hb with rfl | hb
      · simp only [gateBlockA, List.mem_cons, List.mem_singleton] at he
        rcases he with rfl | rfl | h
        · simp [Event.time]
        · simpa [Event.time] using hlb
        · cases h
      · exact le_trans hlb (ih.2 b hb e he)
    · rw [show gateLoop g (gr g.checkpoint_ref) (t + g.timeout) (g.timeout + 1) t
          = .timed_out tT from hrg] at hlb
      simp only [GateResult.time] at hlb
      rw [runTasks_gate_timeout o gr g rest t tT hrg]
      refine ⟨hlb, ?_⟩
      intro b hb e he
      simp only [List.mem_singleton] at hb
      subst hb
      simp only [gateBlockT, List.mem_cons, List.mem_singleton] at he
      rcases he with rfl | rfl | h
      · simp [Event.time]
      · simpa [Event.time] using hlb
      · cases h

/-- Positional sequencing, gate before stage: if the block after a gate's
block exists, the gate was approved, its block records the approval, and
nothing in the later block happens before the approval time. -/
lemma runTasks_gate_then_stage (o : String → Nat → Bool) (gr : String → Option Nat) :
    ∀ tasks t0 i (g : GateSpec) b,
      tasks[i]? = some (.gate g) →
      (runTasks o gr tasks t0).2.1[i + 1]? = some b →
      ∃ tE tA, (runTasks o gr tasks t0).2.1[i]? = some (gateBlockA g tE tA) ∧
        ∀ e ∈ b, tA ≤ e.time
  | [], t0, i, g, b => by simp
  | task :: rest, t0, 0, g, b => by
    intro h0 hb
    simp only [List.getElem?_cons_zero, Option.some_inj] at h0
    subst h0
    rcases hrg : runGate g (gr g.checkpoint_ref) t0 with tA | tT
    · rw [runTasks_gate_approved o gr g rest t0 tA hrg] at hb ⊢
      simp only [List.getElem?_cons_succ, List.getElem?_cons_zero] at hb ⊢
      refine ⟨t0, tA, rfl, ?_⟩
      intro e he
      exact (runTasks_time_lb o gr rest tA).2 b (List.getElem?_mem hb) e he
    · rw [runTasks_gate_timeout o gr g rest t0 tT hrg] at hb
      simp at hb
  | task :: rest, t0, i + 1, g, b => by
    intro h0 hb
    simp only [List.getElem?_cons_succ] at h0
    cases task with
    | stage s' =>
      rcases hrs : runStage s' (o s'.id) t0 with ⟨times, ok, tEnd⟩
      cases ok with
      | true =>
        rw [runTasks_stage_succ o gr s' rest t0 times tEnd hrs] at hb ⊢
        simp only [List.getElem?_cons_succ] at hb ⊢
        exact runTasks_gate_then_stage o gr rest tEnd i g b h0 hb
      | false =>
        rw [runTasks_stage_fail o gr s' rest t0 times tEnd hrs] at hb
        simp at hb
    | gate g' =>
      rcases hrg : runGate g' (gr g'.checkpoint_ref) t0 with tA | tT
      · rw [runTasks_gate_approved o gr g' rest t0 tA hrg] at hb ⊢
        simp only [List.getElem?_cons_succ] at hb ⊢
        exact runTasks_gate_then_stage o gr rest tA i g b h0 hb
      · rw [runTasks_gate_timeout o gr g' rest t0 tT hrg] at hb
        simp at hb

/-- Positional sequencing, stage before gate: if the block after a
stage's block exists, the stage succeeded, its block records the success,
and nothing in the later block happens before the success time. -/
lemma runTasks_stage_then_gate (o : String → Nat → Bool) (gr : String → Option Nat) :
    ∀ tasks t0 i (s : StageSpec) b,
      tasks[i]? = some (.stage s) →
      (runTasks o gr tasks t0).2.1[i + 1]? = some b →
      ∃ times tEnd, (runTasks o gr tasks t0).2.1[i]? =
          some (stageBlock s times true tEnd) ∧
        ∀ e ∈ b, tEnd ≤ e.time
  | [], t0, i, s, b => by simp
  | task :: rest, t0, 0, s, b => by
    intro h0 hb
    simp only [List.getElem?_cons_zero, Option.some_inj] at h0
    subst h0
    rcases hrs : runStage s (o s.id) t0 with ⟨times, ok, tEnd⟩
    cases ok with
    | true =>
      rw [runTasks_stage_succ o gr s rest t0 times tEnd hrs] at hb ⊢
      simp only [List.getElem?_cons_succ, List.getElem?_cons_zero] at hb ⊢
      refine ⟨times, tEnd, rfl, ?_⟩
      intro e he
      exact (runTasks_time_lb o gr rest tEnd).2 b (List.getElem?_mem hb) e he
    | false =>
      rw [runTasks_stage_fail o gr s rest t0 times tEnd hrs] at hb
      simp at hb
  | task :: rest, t0, i + 1, s, b => by
    intro h0 hb
    simp only [List.getElem?_cons_succ] at h0
    cases task with
    | stage s' =>
      rcases hrs : runStage s' (o s'.id) t0 with ⟨times, ok, tEnd⟩
      cases ok with
      | true =>
        rw [runTasks_stage_succ o gr s' rest t0 times tEnd hrs] at hb ⊢
        simp only [List.getElem?_cons_succ] at hb ⊢
        exact runTasks_stage_then_gate o gr rest tEnd i s b h0 hb
      | false =>
        rw [runTasks_stage_fail o gr s' rest t0 times tEnd hrs] at hb
        simp at hb
    | gate g' =>
      rcases hrg : runGate g' (gr g'.checkpoint_ref) t0 with tA | tT
      · rw [runTasks_gate_approved o gr g' rest t0 tA hrg] at hb ⊢
        simp only [List.getElem?_cons_succ] at hb ⊢
        exact runTasks_stage_then_gate o gr rest tA i s b h0 hb
      · rw [runTasks_gate_timeout o gr g' rest t0 tT hrg] at hb
        simp at hb

/-! ## Further helper lemmas -/

/-- The number of `invoke` events in a stage block is its number of
attempts. -/
lemma countInvokes_stageBlock (s : StageSpec) (ok : Bool) (tEnd : Nat) :
    ∀ times, countInvokes (stageBlock s times ok tEnd) = times.length
  | [] => by cases ok <;> rfl
  | t :: ts => by
    have ih := countInvokes_stageBlock s ok tEnd ts
    simp [countInvokes, stageBlock, List.countP_cons] at ih ⊢
    omega

/-- An arithmetic progression with step `d` satisfies the chain relation
`x + d ≤ y` between consecutive elements. -/
lemma chain_arith (d : Nat) : ∀ (n a : Nat),
    List.Chain' (fun x y => x + d ≤ y) ((List.range n).map fun i => a + i * d)
  | 0, _ => by simp
  | n + 1, a => by
    have hfun : ((fun i => a + i * d) ∘ Nat.succ) = fun i => (a + d) + i * d := by
      funext i
      simp only [Function.comp_apply]
      rw [Nat.succ_mul]
      ring
    rw [List.range_succ_eq_map, List.map_cons, List.map_map, hfun]
    rw [List.chain'_cons']
    refine ⟨?_, by simpa using chain_arith d n (a + d)⟩
    intro y hy
    cases n with
    | zero => simp at hy
    | succ m =>
      rw [List.range_succ_eq_map, List.map_cons] at hy
      simp only [List.head?_cons, Option.mem_def, Option.some_inj] at hy
      omega

/-- Every element of a stage block is an `invoke` or the terminal stage
event. -/
lemma mem_stageBlock (s : StageSpec) (times : List Nat) (ok : Bool) (tEnd : Nat)
    (e : Event) (he : e ∈ stageBlock s times ok tEnd) :
    (∃ x ∈ times, e = .invoke s.id x) ∨
      e = (if ok then Event.stageSucceeded s.id tEnd
           else Event.stageFailed s.id tEnd) := by
  simp only [stageBlock, List.mem_append, List.mem_map, List.mem_singleton] at he
  rcases he with ⟨x, hx, rfl⟩ | rfl
  · exact Or.inl ⟨x, hx, rfl⟩
  · exact Or.inr rfl

/-! ## Claim theorems: structure and registry -/

/-- C5, counterexample: the source chain is not an ordered sequence of
`(StageSpec, GateSpec)` pairs — read against the spec-shaped predicate,
the chain embedded from `pipeline.py` fails it, because the chain ends
with the stage `artifact_persist`, which no gate follows. -/
theorem pipeline_pair_shape_cex : specPairShape pedalChain = false := by decide

/-- C5, amended: the pipeline is a strict linear chain of `(stage, gate)`
pairs up to a final trailing stage with no gate: each of the first six
stages is immediately followed by exactly one gate bound 1:1 to it (the
gate watches checkpoint `approve_<stage id>` of the `approval_workflow`
DAG, which declares exactly that task, with `op_kwargs` naming the
stage); checkpoint references are unique; and the declared `>>`
dependency edges are exactly the consecutive edges of the chain, so
there is no branching or fan-in/fan-out. -/
theorem pipeline_chain_shape :
    pairShapeFinalStage pedalChain = true ∧
    chainBound pedalChain = true ∧
    (checkpointRefs pedalChain).Nodup ∧
    chainEdges (taskIds pedalChain) = PipelineSrc.deps := by
  refine ⟨by decide, by decide, by decide, by decide⟩

/-- C9, counterexample: `database_schema_generator` (chain position 5)
and `artifact_persist` (chain position 6) are consecutive stages, yet the
former's output path `/pedal/artifacts/db_schema.ts` is not the latter's
input path `/pedal/artifacts`. -/
theorem artifact_io_cex :
    PipelineSrc.bashOps[5]? = some PipelineSrc.database_schema_generator ∧
    PipelineSrc.bashOps[6]? = some PipelineSrc.artifact_persist ∧
    stageOutput PipelineSrc.database_schema_generator ≠
      stageInput PipelineSrc.artifact_persist := by decide

/-- Whether the output paths of the first `n` stages all lie under the
`/pedal/artifacts/` directory. -/
def outputsUnderArtifactsDir (ops : List BashOp) (n : Nat) : Bool :=
  (List.range n).all fun i =>
    match ops[i]? with
    | some x => (stageOutput x).any fun p =>
        startsWithChars "/pedal/artifacts/".data p.data
    | none => false

/-- C9, amended: for the first five consecutive stage pairs the output
path of stage `n` is exactly the input path of stage `n+1`; the final
stage `artifact_persist` instead consumes the directory
`/pedal/artifacts`, under which every earlier stage's output path lies,
rather than the sixth stage's output path itself. -/
theorem artifact_io_amended :
    chainIOAligned PipelineSrc.bashOps 5 = true ∧
    stageInput PipelineSrc.artifact_persist = some "/pedal/artifacts" ∧
    outputsUnderArtifactsDir PipelineSrc.bashOps 6 = true := by
  refine ⟨by decide, by decide, by decide⟩

/-- Granting an already-granted entry changes nothing. -/
lemma grantEntry_idem (e : ApprovalEntry) (t1 t2 : Nat) :
    grantEntry (grantEntry e t1) t2 = grantEntry e t1 := by
  cases h : e.granted_at <;> simp [grantEntry, h]

/-- C8: `grant` is idempotent and always succeeds: granting twice (on an
entry, or on any checkpoint of a registry) equals granting once; on a
fresh checkpoint the result is `approved = true` with `granted_at` the
first call's timestamp; and the source's `approve_task` returns `True`
on every input. -/
theorem grant_idempotent_always_succeeds :
    (∀ (e : ApprovalEntry) (t1 t2 : Nat),
      grantEntry (grantEntry e t1) t2 = grantEntry e t1) ∧
    (∀ (reg : Registry) (ref : String) (t1 t2 : Nat),
      grantReg (grantReg reg ref t1) ref t2 = grantReg reg ref t1) ∧
    (∀ t1 : Nat, (grantEntry entryInit t1).approved = true ∧
      (grantEntry entryInit t1).granted_at = some t1) ∧
    (∀ kwargs : List (String × String), (ApprovalSrc.approve_task kwargs).1 = true) := by
  refine ⟨grantEntry_idem, ?_, fun t1 => ⟨rfl, rfl⟩, fun _ => rfl⟩
  intro reg ref t1 t2
  funext r
  by_cases hr : r = ref
  · subst hr
    simp [grantReg, grantEntry_idem]
  · simp [grantReg, hr]

/-- C10: the grant operation is enabled and succeeds unconditionally: the
approval DAG is manually triggered (`schedule_interval = None`) with no
dependencies among its tasks, and `approve_task` returns `True` for every
input — with a missing `task_id` defaulting to `unknown`, and identifiers
that name no pipeline stage accepted all the same. -/
theorem approval_always_enabled :
    ApprovalSrc.deps = [] ∧
    ApprovalSrc.dag.schedule_interval = none ∧
    (∀ kwargs : List (String × String), (ApprovalSrc.approve_task kwargs).1 = true) ∧
    ApprovalSrc.approve_task [] = (true, "Approval granted for task: unknown") ∧
    (ApprovalSrc.approve_task [("task_id", "no_such_stage")]).1 = true := by
  exact ⟨rfl, rfl, fun _ => rfl, rfl, rfl⟩

/-- C7: every sensor of the pipeline DAG is declared with
`mode='reschedule'`; a gate that is not yet approved and not yet past its
deadline suspends with a scheduled resumption at `now + poll_interval`
rather than occupying its worker; and consequently any number of gates
can be waiting while zero workers are held, so the waiting-gate count is
not bounded by the worker-pool size. -/
theorem sensor_reschedules_without_worker :
    (∀ x ∈ PipelineSrc.sensorOps, x.mode = "reschedule") ∧
    (∀ (g : GateSpec) (gt : Option Nat) (deadline now : Nat),
      approvedAt gt now = false → now < deadline →
      sensorPoke g gt deadline now = .suspendUntil (now + g.poll_interval)) ∧
    (∀ n : Nat, ∃ st : SchedState, waitingGates st = n ∧ busyWorkers st = 0) := by
  refine ⟨by decide, ?_, ?_⟩
  · intro g gt deadline now hap hlt
    simp [sensorPoke, hap, hlt]
  · intro n
    refine ⟨⟨List.replicate n (.suspended 0)⟩, ?_, ?_⟩
    · simp [waitingGates, List.countP_replicate]
    · simp [busyWorkers, List.countP_replicate]

/-- Witness for C7: the first pipeline sensor's gate, unapproved at time
0 with deadline 3600, suspends until 60 and holds no worker; three gates
can wait with zero busy workers. -/
theorem sensor_reschedules_without_worker_witness :
    approvedAt none 0 = false ∧ (0 : Nat) < 3600 ∧
    sensorPoke (gateOfOp PipelineSrc.approve_requirements_ingest) none 3600 0 =
      .suspendUntil 60 ∧
    (∃ st : SchedState, waitingGates st = 3 ∧ busyWorkers st = 0) :=
  ⟨by decide, by decide,
   sensor_reschedules_without_worker.2.1
     (gateOfOp PipelineSrc.approve_requirements_ingest) none 3600 0 rfl (by decide),
   sensor_reschedules_without_worker.2.2 3⟩

/-! ## Claim theorems: sequencing, timeout, retries -/

/-- C1: within one run, stage and gate execution is strictly sequential
in the chain order: whenever the chain places gate `n` at position `i`
and stage `n+1` right after it, stage `n+1` produces a trace block only
if gate `n`'s block ends in `approved`, and no event of stage `n+1`'s
block precedes the approval time; and whenever a stage is right before
its gate, the gate produces a block only if the stage's block ends in
success, and no event of the gate's block precedes the success time. -/
theorem stage_gate_strictly_sequential :
    (∀ (o : String → Nat → Bool) (gr : String → Option Nat)
      (tasks : List PipelineTask) (t0 i : Nat) (g : GateSpec) (s : StageSpec)
      (b : List Event),
      tasks[i]? = some (.gate g) →
      tasks[i + 1]? = some (.stage s) →
      (runTasks o gr tasks t0).2.1[i + 1]? = some b →
      ∃ tE tA, (runTasks o gr tasks t0).2.1[i]? = some (gateBlockA g tE tA) ∧
        ∀ e ∈ b, tA ≤ e.time) ∧
    (∀ (o : String → Nat → Bool) (gr : String → Option Nat)
      (tasks : List PipelineTask) (t0 i : Nat) (s : StageSpec) (g : GateSpec)
      (b : List Event),
      tasks[i]? = some (.stage s) →
      tasks[i + 1]? = some (.gate g) →
      (runTasks o gr tasks t0).2.1[i + 1]? = some b →
      ∃ times tEnd, (runTasks o gr tasks t0).2.1[i]? =
          some (stageBlock s times true tEnd) ∧
        ∀ e ∈ b, tEnd ≤ e.time) :=
  ⟨fun o gr tasks t0 i g _s b hg _hs hb =>
      runTasks_gate_then_stage o gr tasks t0 i g b hg hb,
   fun o gr tasks t0 i s _g b hs _hg hb =>
      runTasks_stage_then_gate o gr tasks t0 i s b hs hb⟩

/-- Witness for C1: in the all-approved, all-succeeding run of the pedal
chain from time 0, the stage at position 2 runs only after the gate at
position 1 is approved, and the gate at position 1 runs only after the
stage at position 0 succeeds. -/
theorem stage_gate_strictly_sequential_witness :
    pedalChain[1]? = some (.gate (gateOfOp PipelineSrc.approve_requirements_ingest)) ∧
    pedalChain[2]? = some (.stage (stageOfOp PipelineSrc.domain_model_generator)) ∧
    (runTasks (fun _ _ => true) (fun _ => some 0) pedalChain 0).2.1[2]? =
      some (stageBlock (stageOfOp PipelineSrc.domain_model_generator) [0] true 0) ∧
    (∃ tE tA, (runTasks (fun _ _ => true) (fun _ => some 0) pedalChain 0).2.1[1]? =
        some (gateBlockA (gateOfOp PipelineSrc.approve_requirements_ingest) tE tA) ∧
      ∀ e ∈ stageBlock (stageOfOp PipelineSrc.domain_model_generator) [0] true 0,
        tA ≤ e.time) ∧
    pedalChain[0]? = some (.stage (stageOfOp PipelineSrc.requirements_ingest)) ∧
    (runTasks (fun _ _ => true) (fun _ => some 0) pedalChain 0).2.1[1]? =
      some (gateBlockA (gateOfOp PipelineSrc.approve_requirements_ingest) 0 0) ∧
    (∃ times tEnd, (runTasks (fun _ _ => true) (fun _ => some 0) pedalChain 0).2.1[0]? =
        some (stageBlock (stageOfOp PipelineSrc.requirements_ingest) times true tEnd) ∧
      ∀ e ∈ gateBlockA (gateOfOp PipelineSrc.approve_requirements_ingest) 0 0,
        tEnd ≤ e.time) :=
  ⟨by decide, by decide, by decide,
   stage_gate_strictly_sequential.1 (fun _ _ => true) (fun _ => some 0) pedalChain 0 1
     (gateOfOp PipelineSrc.approve_requirements_ingest)
     (stageOfOp PipelineSrc.domain_model_generator)
     (stageBlock (stageOfOp PipelineSrc.domain_model_generator) [0] true 0)
     (by decide) (by decide) (by decide),
   by decide, by decide,
   stage_gate_strictly_sequential.2 (fun _ _ => true) (fun _ => some 0) pedalChain 0 0
     (stageOfOp PipelineSrc.requirements_ingest)
     (gateOfOp PipelineSrc.approve_requirements_ingest)
     (gateBlockA (gateOfOp PipelineSrc.approve_requirements_ingest) 0 0)
     (by decide) (by decide) (by decide)⟩

/-- C3: a gate whose checkpoint never receives grant times out no earlier
than its deadline (entry time plus timeout) and no later than the
deadline plus one poll interval of slack, and the run transitions to
`timed_out` immediately after — the trace ends with that gate's block and
the run status is `timed_out` regardless of the remaining chain. -/
theorem gate_never_granted_times_out (g : GateSpec) (rest : List PipelineTask)
    (o : String → Nat → Bool) (gr : String → Option Nat) (t0 : Nat)
    (hpoll : 0 < g.poll_interval) (hnone : gr g.checkpoint_ref = none) :
    ∃ tT, runGate g (gr g.checkpoint_ref) t0 = .timed_out tT ∧
      t0 + g.timeout ≤ tT ∧ tT ≤ t0 + g.timeout + g.poll_interval ∧
      runTasks o gr (.gate g :: rest) t0 =
        (.timed_out g.id, [gateBlockT g t0 tT], tT) := by
  obtain ⟨tT, h1, h2, h3⟩ := runGate_none g t0 hpoll
  have h1' : runGate g (gr g.checkpoint_ref) t0 = .timed_out tT := by
    rw [hnone]; exact h1
  exact ⟨tT, h1', h2, h3, runTasks_gate_timeout o gr g rest t0 tT h1'⟩

/-- Witness for C3: the first pedal gate with no grant, entered at time
0, times out at 3600 = deadline (timeout 3600, poll 60, zero slack used)
and the run halts with status `timed_out` without reaching the next
stage. -/
theorem gate_never_granted_times_out_witness :
    0 < (gateOfOp PipelineSrc.approve_requirements_ingest).poll_interval ∧
    (∃ tT, runGate (gateOfOp PipelineSrc.approve_requirements_ingest) none 0 =
        .timed_out tT ∧
      3600 ≤ tT ∧ tT ≤ 3660 ∧
      runTasks (fun _ _ => true) (fun _ => none)
          (.gate (gateOfOp PipelineSrc.approve_requirements_ingest) ::
            [.stage (stageOfOp PipelineSrc.domain_model_generator)]) 0 =
        (.timed_out "approve_requirements_ingest",
         [gateBlockT (gateOfOp PipelineSrc.approve_requirements_ingest) 0 tT], tT)) :=
  ⟨by decide,
   gate_never_granted_times_out (gateOfOp PipelineSrc.approve_requirements_ingest)
     [.stage (stageOfOp PipelineSrc.domain_model_generator)]
     (fun _ _ => true) (fun _ => none) 0 (by decide) rfl⟩

/-- C4: a stage whose external invocation fails on every attempt makes
exactly `retry_limit + 1` attempts (one invocation per attempt), with
consecutive attempts separated by at least `retry_delay`, and the run
transitions to `failed` regardless of the remaining chain. -/
theorem stage_retry_exhaustion_fails (s : StageSpec) (rest : List PipelineTask)
    (o : String → Nat → Bool) (gr : String → Option Nat) (t0 : Nat)
    (hfail : ∀ k, o s.id k = false) :
    ∃ times, runTasks o gr (.stage s :: rest) t0 =
        (.failed s.id,
         [stageBlock s times false (t0 + s.retry_limit * s.retry_delay)],
         t0 + s.retry_limit * s.retry_delay) ∧
      times = (List.range (s.retry_limit + 1)).map (fun i => t0 + i * s.retry_delay) ∧
      times.length = s.retry_limit + 1 ∧
      countInvokes (stageBlock s times false (t0 + s.retry_limit * s.retry_delay)) =
        s.retry_limit + 1 ∧
      List.Chain' (fun a b => a + s.retry_delay ≤ b) times := by
  have hsl := stageLoop_all_fail s.retry_delay (o s.id) hfail s.retry_limit 0 t0
  refine ⟨(List.range (s.retry_limit + 1)).map (fun i => t0 + i * s.retry_delay),
    runTasks_stage_fail o gr s rest t0 _ _ hsl, rfl, by simp, ?_, ?_⟩
  · rw [countInvokes_stageBlock]
    simp
  · exact chain_arith s.retry_delay (s.retry_limit + 1) t0

/-- Witness for C4: `requirements_ingest` (retry limit 1, retry delay
300 s) failing on every attempt is invoked exactly twice, at times 0 and
300, and the run ends `failed`. -/
theorem stage_retry_exhaustion_fails_witness :
    (∀ k, (fun (_ : String) (_ : Nat) => false)
        (stageOfOp PipelineSrc.requirements_ingest).id k = false) ∧
    (∃ times, runTasks (fun _ _ => false) (fun _ => some 0)
          (.stage (stageOfOp PipelineSrc.requirements_ingest) ::
            [.gate (gateOfOp PipelineSrc.approve_requirements_ingest)]) 0 =
        (.failed "requirements_ingest",
         [stageBlock (stageOfOp PipelineSrc.requirements_ingest) times false 300], 300) ∧
      times = (List.range 2).map (fun i => 0 + i * 300) ∧
      times.length = 2 ∧
      countInvokes (stageBlock (stageOfOp PipelineSrc.requirements_ingest)
        times false 300) = 2 ∧
      List.Chain' (fun a b => a + 300 ≤ b) times) :=
  ⟨fun _ => rfl,
   stage_retry_exhaustion_fails (stageOfOp PipelineSrc.requirements_ingest)
     [.gate (gateOfOp PipelineSrc.approve_requirements_ingest)]
     (fun _ _ => false) (fun _ => some 0) 0 (fun _ => rfl)⟩

/-! ## Claim theorem: full-grant runs complete -/

/-- C2: for every chain, a run in which every stage's external invocation
succeeds on its first attempt, every gate's poll interval is positive,
and grant is issued for every entered gate's checkpoint strictly before
that gate's deadline, reaches the terminal state `completed`, and every
stage in the chain is invoked exactly once, in chain order. -/
theorem run_all_granted_completes :
    ∀ (tasks : List PipelineTask) (o : String → Nat → Bool)
      (gr : String → Option Nat) (t0 : Nat),
      (∀ task ∈ tasks, firstOK o task = true) →
      (∀ task ∈ tasks, pollPos task = true) →
      (∀ i ∈ List.range tasks.length,
        grantOK gr tasks[i]? (entryOf (runTasks o gr tasks t0).2.1 i) = true) →
      (runTasks o gr tasks t0).1 = .completed ∧
        invokesOf (runTasks o gr tasks t0).2.1 = stageIds tasks
  | [], o, gr, t0 => by
    intro _ _ _
    simp [runTasks, invokesOf, stageIds]
  | .stage s :: rest, o, gr, t0 => by
    intro h1 h2 h3
    have hfirst : o s.id 0 = true := by
      simpa [firstOK] using h1 (.stage s) (List.mem_cons_self _ _)
    have hrs : runStage s (o s.id) t0 = ([t0], true, t0) :=
      stageLoop_first_success s.retry_delay (o s.id) s.retry_limit 0 t0 hfirst
    rw [runTasks_stage_succ o gr s rest t0 [t0] t0 hrs] at h3 ⊢
    have h3' : ∀ i ∈ List.range rest.length,
        grantOK gr rest[i]? (entryOf (runTasks o gr rest t0).2.1 i) = true := by
      intro i hi
      have hmem : i + 1 ∈ List.range (.stage s :: rest : List PipelineTask).length := by
        simp only [List.mem_range, List.length_cons] at hi ⊢
        omega
      have := h3 (i + 1) (by simpa using hmem)
      simpa [entryOf, List.getElem?_cons_succ] using this
    have ih := run_all_granted_completes rest o gr t0
      (fun task ht => h1 task (List.mem_cons_of_mem _ ht))
      (fun task ht => h2 task (List.mem_cons_of_mem _ ht)) h3'
    refine ⟨ih.1, ?_⟩
    simp only [invokesOf, List.flatten_cons, List.filterMap_append] at ih ⊢
    rw [ih.2]
    simp [stageBlock, stageIds]
  | .gate g :: rest, o, gr, t0 => by
    intro h1 h2 h3
    have hpoll : 0 < g.poll_interval := by
      simpa [pollPos] using h2 (.gate g) (List.mem_cons_self _ _)
    have hE : entryOf (runTasks o gr (.gate g :: rest) t0).2.1 0 = some t0 := by
      rcases hrg : runGate g (gr g.checkpoint_ref) t0 with tA | tT
      · rw [runTasks_gate_approved o gr g rest t0 tA hrg]
        simp [entryOf, gateBlockA]
      · rw [runTasks_gate_timeout o gr g rest t0 tT hrg]
        simp [entryOf, gateBlockT]
    have h30 := h3 0 (by simp)
    rw [hE] at h30
    simp only [List.getElem?_cons_zero] at h30
    rcases hgr : gr g.checkpoint_ref with _ | tg
    · rw [grantOK, hgr] at h30
      cases h30
    · rw [grantOK, hgr] at h30
      have htg : tg < t0 + g.timeout := of_decide_eq_true h30
      obtain ⟨tA, hA, _⟩ := runGate_granted g t0 tg hpoll htg
      have hrg : runGate g (gr g.checkpoint_ref) t0 = .approved tA := by
        rw [hgr]; exact hA
      rw [runTasks_gate_approved o gr g rest t0 tA hrg] at h3 ⊢
      have h3' : ∀ i ∈ List.range rest.length,
          grantOK gr rest[i]? (entryOf (runTasks o gr rest tA).2.1 i) = true := by
        intro i hi
        have hmem : i + 1 ∈ List.range (.gate g :: rest : List PipelineTask).length := by
          simp only [List.mem_range, List.length_cons] at hi ⊢
          omega
        have := h3 (i + 1) (by simpa using hmem)
        simpa [entryOf, List.getElem?_cons_succ] using this
      have ih := run_all_granted_completes rest o gr tA
        (fun task ht => h1 task (List.mem_cons_of_mem _ ht))
        (fun task ht => h2 task (List.mem_cons_of_mem _ ht)) h3'
      refine ⟨ih.1, ?_⟩
      simp only [invokesOf, List.flatten_cons, List.filterMap_append] at ih ⊢
      rw [ih.2]
      simp [gateBlockA, stageIds]

/-- Witness for C2: the pedal chain with every invocation succeeding and
every checkpoint granted at time 0 completes, invoking all seven stages
exactly once in chain order. -/
theorem run_all_granted_completes_witness :
    (∀ task ∈ pedalChain, firstOK (fun _ _ => true) task = true) ∧
    (∀ task ∈ pedalChain, pollPos task = true) ∧
    (∀ i ∈ List.range pedalChain.length,
      grantOK (fun _ => some 0) pedalChain[i]?
        (entryOf (runTasks (fun _ _ => true) (fun _ => some 0) pedalChain 0).2.1 i)
        = true) ∧
    ((runTasks (fun _ _ => true) (fun _ => some 0) pedalChain 0).1 = .completed ∧
      invokesOf (runTasks (fun _ _ => true) (fun _ => some 0) pedalChain 0).2.1 =
        stageIds pedalChain) :=
  ⟨by decide, by decide, by decide,
   run_all_granted_completes pedalChain (fun _ _ => true) (fun _ => some 0) 0
     (by decide) (by decide) (by decide)⟩

/-! ## Claim theorem: failures are terminal -/

/-- A gate-timeout event in a run's trace means the run halted there: the
status is `timed_out` for that gate and the event is the last of the
whole trace. -/
lemma timeout_terminal (o : String → Nat → Bool) (gr : String → Option Nat) :
    ∀ tasks t gid tT,
      Event.gateTimedOut gid tT ∈ (runTasks o gr tasks t).2.1.flatten →
      (runTasks o gr tasks t).1 = .timed_out gid ∧
      (runTasks o gr tasks t).2.1.flatten.getLast? = some (.gateTimedOut gid tT)
  | [], t, gid, tT => by
    intro h
    simp [runTasks] at h
  | .stage s :: rest, t, gid, tT => by
    intro h
    rcases hrs : runStage s (o s.id) t with ⟨times, ok, tEnd⟩
    cases ok with
    | true =>
      rw [runTasks_stage_succ o gr s rest t times tEnd hrs] at h ⊢
      simp only [List.flatten_cons, List.mem_append] at h
      rcases h with h | h
      · rcases mem_stageBlock s times true tEnd _ h with ⟨x, _, hx⟩ | hx <;> simp at hx
      · have ih := timeout_terminal o gr rest tEnd gid tT h
        refine ⟨ih.1, ?_⟩
        rw [List.flatten_cons,
          List.getLast?_append_of_ne_nil _ (List.ne_nil_of_mem h)]
        exact ih.2
    | false =>
      rw [runTasks_stage_fail o gr s rest t times tEnd hrs] at h
      simp only [List.flatten_cons, List.flatten_nil, List.append_nil] at h
      rcases mem_stageBlock s times false tEnd _ h with ⟨x, _, hx⟩ | hx <;> simp at hx
  | .gate g :: rest, t, gid, tT => by
    intro h
    rcases hrg : runGate g (gr g.checkpoint_ref) t with tA | tT'
    · rw [runTasks_gate_approved o gr g rest t tA hrg] at h ⊢
      simp only [List.flatten_cons, List.mem_append] at h
      rcases h with h | h
      · simp [gateBlockA] at h
      · have ih := timeout_terminal o gr rest tA gid tT h
        refine ⟨ih.1, ?_⟩
        rw [List.flatten_cons,
          List.getLast?_append_of_ne_nil _ (List.ne_nil_of_mem h)]
        exact ih.2
    · rw [runTasks_gate_timeout o gr g rest t tT' hrg] at h ⊢
      simp only [List.flatten_cons, List.flatten_nil, List.append_nil,
        gateBlockT, List.mem_cons, List.mem_singleton] at h
      rcases h with h | h | h
      · cases h
      · obtain ⟨h1, h2⟩ := Event.gateTimedOut.inj h
        subst h1
        subst h2
        exact ⟨rfl, rfl⟩
      · cases h

/-- A stage-failure event in a run's trace means the run halted there:
the status is `failed` for that stage and the event is the last of the
whole trace. -/
lemma stagefail_terminal (o : String → Nat → Bool) (gr : String → Option Nat) :
    ∀ tasks t sid tF,
      Event.stageFailed sid tF ∈ (runTasks o gr tasks t).2.1.flatten →
      (runTasks o gr tasks t).1 = .failed sid ∧
      (runTasks o gr tasks t).2.1.flatten.getLast? = some (.stageFailed sid tF)
  | [], t, sid, tF => by
    intro h
    simp [runTasks] at h
  | .stage s :: rest, t, sid, tF => by
    intro h
    rcases hrs : runStage s (o s.id) t with ⟨times, ok, tEnd⟩
    cases ok with
    | true =>
      rw [runTasks_stage_succ o gr s rest t times tEnd hrs] at h ⊢
      simp only [List.flatten_cons, List.mem_append] at h
      rcases h with h | h
      · rcases mem_stageBlock s times true tEnd _ h with ⟨x, _, hx⟩ | hx <;> simp at hx
      · have ih := stagefail_terminal o gr rest tEnd sid tF h
        refine ⟨ih.1, ?_⟩
        rw [List.flatten_cons,
          List.getLast?_append_of_ne_nil _ (List.ne_nil_of_mem h)]
        exact ih.2
    | false =>
      rw [runTasks_stage_fail o gr s rest t times tEnd hrs] at h ⊢
      simp only [List.flatten_cons, List.flatten_nil, List.append_nil] at h ⊢
      rcases mem_stageBlock s times false tEnd _ h with ⟨x, _, hx⟩ | hx
      · cases hx
      · simp only [if_neg Bool.false_ne_true] at hx
        obtain ⟨h1, h2⟩ := Event.stageFailed.inj hx
        subst h1
        subst h2
        refine ⟨rfl, ?_⟩
        simp only [stageBlock, if_neg Bool.false_ne_true]
        exact List.getLast?_concat _
  | .gate g :: rest, t, sid, tF => by
    intro h
    rcases hrg : runGate g (gr g.checkpoint_ref) t with tA | tT'
    · rw [runTasks_gate_approved o gr g rest t tA hrg] at h ⊢
      simp only [List.flatten_cons, List.mem_append] at h
      rcases h with h | h
      · simp [gateBlockA] at h
      · have ih := stagefail_terminal o gr rest tA sid tF h
        refine ⟨ih.1, ?_⟩
        rw [List.flatten_cons,
          List.getLast?_append_of_ne_nil _ (List.ne_nil_of_mem h)]
        exact ih.2
    · rw [runTasks_gate_timeout o gr g rest t tT' hrg] at h
      simp [gateBlockT] at h

/-- Every stage block of a run holds at most `retry_limit + 1`
invocations of its stage. -/
lemma invokes_bounded (o : String → Nat → Bool) (gr : String → Option Nat) :
    ∀ (tasks : List PipelineTask) (t i : Nat) (s : StageSpec) (b : List Event),
      tasks[i]? = some (.stage s) →
      (runTasks o gr tasks t).2.1[i]? = some b →
      countInvokes b ≤ s.retry_limit + 1
  | [], _, i, s, b => by simp
  | task :: rest, t, 0, s, b => by
    intro h0 hb
    simp only [List.getElem?_cons_zero, Option.some_inj] at h0
    subst h0
    rcases hrs : runStage s (o s.id) t with ⟨times, ok, tEnd⟩
    have hlen : times.length ≤ s.retry_limit + 1 := by
      have hl := stageLoop_len_le s.retry_delay (o s.id) s.retry_limit 0 t
      rw [show stageLoop s.retry_delay (o s.id) s.retry_limit 0 t
          = (times, ok, tEnd) from hrs] at hl
      exact hl
    cases ok with
    | true =>
      rw [runTasks_stage_succ o gr s rest t times tEnd hrs] at hb
      simp only [List.getElem?_cons_zero, Option.some_inj] at hb
      subst hb
      rw [countInvokes_stageBlock]
      exact hlen
    | false =>
      rw [runTasks_stage_fail o gr s rest t times tEnd hrs] at hb
      simp only [List.getElem?_cons_zero, Option.some_inj] at hb
      subst hb
      rw [countInvokes_stageBlock]
      exact hlen
  | task :: rest, t, i + 1, s, b => by
    intro h0 hb
    simp only [List.getElem?_cons_succ] at h0
    cases task with
    | stage s' =>
      rcases hrs : runStage s' (o s'.id) t with ⟨times, ok, tEnd⟩
      cases ok with
      | true =>
        rw [runTasks_stage_succ o gr s' rest t times tEnd hrs] at hb
        simp only [List.getElem?_cons_succ] at hb
        exact invokes_bounded o gr rest tEnd i s b h0 hb
      | false =>
        rw [runTasks_stage_fail o gr s' rest t times tEnd hrs] at hb
        simp at hb
    | gate g' =>
      rcases hrg : runGate g' (gr g'.checkpoint_ref) t with tA | tT
      · rw [runTasks_gate_approved o gr g' rest t tA hrg] at hb
        simp only [List.getElem?_cons_succ] at hb
        exact invokes_bounded o gr rest tA i s b h0 hb
      · rw [runTasks_gate_timeout o gr g' rest t tT hrg] at hb
        simp at hb

/-- C6: `StageFailure` and `GateTimeout` are terminal for the run — a
gate-timeout or stage-failure event halts the run with the matching
terminal status and is the last event of the whole trace, so neither is
retried — and no stage is ever invoked more than `retry_limit + 1` times
within its block. -/
theorem failures_terminal_not_retried :
    ∀ (tasks : List PipelineTask) (o : String → Nat → Bool)
      (gr : String → Option Nat) (t : Nat),
      (∀ gid tT, Event.gateTimedOut gid tT ∈ (runTasks o gr tasks t).2.1.flatten →
        (runTasks o gr tasks t).1 = .timed_out gid ∧
        (runTasks o gr tasks t).2.1.flatten.getLast? =
          some (.gateTimedOut gid tT)) ∧
      (∀ sid tF, Event.stageFailed sid tF ∈ (runTasks o gr tasks t).2.1.flatten →
        (runTasks o gr tasks t).1 = .failed sid ∧
        (runTasks o gr tasks t).2.1.flatten.getLast? =
          some (.stageFailed sid tF)) ∧
      (∀ (i : Nat) (s : StageSpec) (b : List Event),
        tasks[i]? = some (.stage s) →
        (runTasks o gr tasks t).2.1[i]? = some b →
        countInvokes b ≤ s.retry_limit + 1) :=
  fun tasks o gr t =>
    ⟨fun gid tT h => timeout_terminal o gr tasks t gid tT h,
     fun sid tF h => stagefail_terminal o gr tasks t sid tF h,
     fun i s b h0 hb => invokes_bounded o gr tasks t i s b h0 hb⟩

/-- Witness for C6: in the all-failing pedal run the stage-failure event
at time 300 is last and the status is `failed`; in the never-granted
pedal run the gate-timeout event at time 3600 is last and the status is
`timed_out`; and the failing first stage's block holds at most 2
invocations. -/
theorem failures_terminal_not_retried_witness :
    (Event.stageFailed "requirements_ingest" 300 ∈
      (runTasks (fun _ _ => false) (fun _ => some 0) pedalChain 0).2.1.flatten) ∧
    ((runTasks (fun _ _ => false) (fun _ => some 0) pedalChain 0).1 =
        .failed "requirements_ingest" ∧
      (runTasks (fun _ _ => false) (fun _ => some 0) pedalChain 0).2.1.flatten.getLast?
        = some (.stageFailed "requirements_ingest" 300)) ∧
    (Event.gateTimedOut "approve_requirements_ingest" 3600 ∈
      (runTasks (fun _ _ => true) (fun _ => none) pedalChain 0).2.1.flatten) ∧
    ((runTasks (fun _ _ => true) (fun _ => none) pedalChain 0).1 =
        .timed_out "approve_requirements_ingest" ∧
      (runTasks (fun _ _ => true) (fun _ => none) pedalChain 0).2.1.flatten.getLast?
        = some (.gateTimedOut "approve_requirements_ingest" 3600)) ∧
    (pedalChain[0]? = some (.stage (stageOfOp PipelineSrc.requirements_ingest)) ∧
      (runTasks (fun _ _ => false) (fun _ => some 0) pedalChain 0).2.1[0]? =
        some (stageBlock (stageOfOp PipelineSrc.requirements_ingest) [0, 300] false 300) ∧
      countInvokes (stageBlock (stageOfOp PipelineSrc.requirements_ingest)
        [0, 300] false 300) ≤ 2) :=
  ⟨by decide,
   (failures_terminal_not_retried pedalChain (fun _ _ => false) (fun _ => some 0) 0).2.1
     "requirements_ingest" 300 (by decide),
   by decide,
   (failures_terminal_not_retried pedalChain (fun _ _ => true) (fun _ => none) 0).1
     "approve_requirements_ingest" 3600 (by decide),
   by decide, by decide,
   (failures_terminal_not_retried pedalChain (fun _ _ => false) (fun _ => some 0) 0).2.2
     0 (stageOfOp PipelineSrc.requirements_ingest)
     (stageBlock (stageOfOp PipelineSrc.requirements_ingest) [0, 300] false 300)
     (by decide) (by decide)⟩

end Pedal
